import Mathlib

/-
Verification development for the nusantara-rainforecaster repository.

The Python functions of src/data/loader.py, src/models/trainer.py and
src/app.py that the claims concern are shallowly embedded as executable
Lean definitions.  Machine floats are modelled by rationals, missing
values (NaN / None) by Option, and the pandas dataframe by lists of
records.  The sklearn estimators themselves (gradient boosting, random
forests) are opaque fitted functions; they are modelled as function
parameters, with the single library contract that predict_proba yields
a value in [0, 1].
-/

/- ────────────────────────────────────────────────────────────────────
src/models/trainer.py, estimate_rain_hours (lines 183-218)
──────────────────────────────────────────────────────────────────── -/

/-- Wet season test of estimate_rain_hours: month in [11, 12, 1, 2, 3, 4]. -/
def wetSeason (month : ℕ) : Bool :=
  [11, 12, 1, 2, 3, 4].contains month

/-- Python truthiness test combined with a comparison, as in the source
conditions mm and mm > 40 and mm and mm > 15: None and 0.0 are falsy. -/
def truthyGT (mm : Option ℚ) (t : ℚ) : Bool :=
  match mm with
  | none => false
  | some v => (!(v == 0)) && decide (t < v)

/-- Numeric core of estimate_rain_hours: the (start_h, end_h, peak_h) hour
triple, or none when prob < 0.3.  Mirrors the source rule table exactly. -/
def rainHourCore (prob : ℚ) (mm : Option ℚ) (month : ℕ) : Option (ℕ × ℕ × ℕ) :=
  if prob < 3/10 then none
  else
    let wet := wetSeason month
    let base : ℕ × ℕ × ℕ :=
      if truthyGT mm 40 then (if wet then (12, 19, 14) else (13, 18, 14))
      else if truthyGT mm 15 then (13, 17, 15)
      else (14, 16, 15)
    let s := if wet && decide ((7:ℚ)/10 < prob) then max 9 (base.1 - 2) else base.1
    some (s, base.2.1, base.2.2)

/-- Python f-string 02d zero padding followed by ":00". -/
def fmtHour (h : ℕ) : String :=
  (if h < 10 then "0" ++ toString h else toString h) ++ ":00"

/-- The dict returned by estimate_rain_hours.  The field stop models the
dict key named end (a reserved word in Lean). -/
structure RainWindow where
  start : Option String
  stop : Option String
  peak : Option String
  description : String
deriving DecidableEq

/-- estimate_rain_hours from src/models/trainer.py. -/
def estimateRainHours (prob : ℚ) (mm : Option ℚ) (month : ℕ) : RainWindow :=
  match rainHourCore prob mm month with
  | none => ⟨none, none, none, "Tidak ada hujan"⟩
  | some (s, e, p) =>
      ⟨some (fmtHour s), some (fmtHour e), some (fmtHour p),
       "Hujan diperkirakan ~" ++ fmtHour s ++ "–" ++ fmtHour e ++ " WIB"⟩

/-- Start hour of an hour triple (0 when absent). -/
def startOf (o : Option (ℕ × ℕ × ℕ)) : ℕ := (o.getD (0, 0, 0)).1

/-- End hour of an hour triple (0 when absent). -/
def endOf (o : Option (ℕ × ℕ × ℕ)) : ℕ := (o.getD (0, 0, 0)).2.1

/-- Peak hour of an hour triple (0 when absent). -/
def peakOf (o : Option (ℕ × ℕ × ℕ)) : ℕ := (o.getD (0, 0, 0)).2.2

/- ────────────────────────────────────────────────────────────────────
src/app.py, _infer (lines 97-137): the deterministic estimator
──────────────────────────────────────────────────────────────────── -/

/-- A target calendar date as used by _infer. -/
structure SimDate where
  year : ℕ
  month : ℕ
  day : ℕ
deriving DecidableEq

/-- The RNG seed: target_date.year * 10000 + target_date.month * 100 +
target_date.day. -/
def seedOf (d : SimDate) : ℕ :=
  d.year * 10000 + d.month * 100 + d.day

/-- A calendar-plausible date (what datetime.date guarantees). -/
def validDate (d : SimDate) : Prop :=
  1 ≤ d.month ∧ d.month ≤ 12 ∧ 1 ≤ d.day ∧ d.day ≤ 31

/-- The ten synthesized fields of one feature row (the base dict of
_infer after the jitter passes). -/
structure BaseVals where
  Tn : ℚ
  Tx : ℚ
  Tavg : ℚ
  RH_avg : ℚ
  ss : ℚ
  ff_x : ℚ
  ff_avg : ℚ
  RR_roll7 : ℚ
  Tavg_roll7 : ℚ
  RH_avg_roll7 : ℚ
deriving DecidableEq

/-- The fallback base values used by _infer when no monthly stats exist. -/
def defaultBase : BaseVals :=
  ⟨22, 32, 27, 82, 5, 6, 4, 5, 27, 82⟩

/-- Python round(v, 1): rounding to one decimal place.  Tie-breaking at
exact half-ties is immaterial to every property proved below. -/
def rnd1 (x : ℚ) : ℚ :=
  ((⌊10 * x + 1/2⌋ : ℤ) : ℚ) / 10

/-- The clamp inside jitter: first max with lo (when given), then min
with hi (when given), in source order. -/
def clampOpt (lo hi : Option ℚ) (v : ℚ) : ℚ :=
  let v1 := match lo with | some l => max l v | none => v
  match hi with | some h => min h v1 | none => v1

/-- jitter(val, scale, lo, hi) of _infer; noise stands for the Gaussian
draw rng.normal(0, scale) written as scale times a standard draw. -/
def jitterC (val scale : ℚ) (lo hi : Option ℚ) (noise : ℚ) : ℚ :=
  rnd1 (clampOpt lo hi (val + scale * noise))

/-- The synthesizing part of _infer.  draw seed k is the k-th standard
normal variate of the PCG64 stream seeded with seed; stats is the
monthly-profile dict (none when the session has no stats).  The field
updates happen in source order, each later jitter seeing the already
updated earlier fields. -/
def inferFeatures (draw : ℕ → ℕ → ℚ) (stats : Option (ℕ → BaseVals))
    (d : SimDate) : BaseVals :=
  let base := match stats with | some f => f d.month | none => defaultBase
  let sd := seedOf d
  let tavg := jitterC base.Tavg 1.2 (some (-5)) (some 50) (draw sd 0)
  let tn := jitterC base.Tn 1.0 (some (-5)) (some tavg) (draw sd 1)
  let tx := jitterC base.Tx 1.5 (some tavg) (some 55) (draw sd 2)
  let rh := jitterC base.RH_avg 4.0 (some 30) (some 100) (draw sd 3)
  let sunsh := jitterC base.ss 1.5 (some 0) (some 12) (draw sd 4)
  let ffx := jitterC base.ff_x 1.0 (some 0) (some 30) (draw sd 5)
  let ffavg := jitterC base.ff_avg 0.8 (some 0) (some ffx) (draw sd 6)
  let rr7 := jitterC base.RR_roll7 1.5 (some 0) none (draw sd 7)
  let tavg7 := jitterC base.Tavg_roll7 0.8 (some (-5)) (some 50) (draw sd 8)
  let rh7 := jitterC base.RH_avg_roll7 2.5 (some 30) (some 100) (draw sd 9)
  { Tn := tn, Tx := tx, Tavg := tavg, RH_avg := rh, ss := sunsh,
    ff_x := ffx, ff_avg := ffavg, RR_roll7 := rr7, Tavg_roll7 := tavg7,
    RH_avg_roll7 := rh7 }

theorem rnd1_mono {x y : ℚ} (h : x ≤ y) : rnd1 x ≤ rnd1 y := by
  unfold rnd1
  have hf : ⌊10 * x + 1/2⌋ ≤ ⌊10 * y + 1/2⌋ := Int.floor_le_floor (by linarith)
  have : ((⌊10 * x + 1/2⌋ : ℤ) : ℚ) ≤ ((⌊10 * y + 1/2⌋ : ℤ) : ℚ) := by
    exact_mod_cast hf
  linarith

theorem rnd1_rnd1 (x : ℚ) : rnd1 (rnd1 x) = rnd1 x := by
  unfold rnd1
  have h1 : (10 : ℚ) * (((⌊10 * x + 1/2⌋ : ℤ) : ℚ) / 10) + 1/2
      = 1/2 + ((⌊10 * x + 1/2⌋ : ℤ) : ℚ) := by ring
  rw [h1, Int.floor_add_int]
  norm_num

theorem rnd1_intCast (k : ℤ) : rnd1 ((k : ℚ)) = (k : ℚ) := by
  unfold rnd1
  have h1 : (10 : ℚ) * (k : ℚ) + 1/2 = 1/2 + ((10 * k : ℤ) : ℚ) := by
    push_cast; ring
  rw [h1, Int.floor_add_int]
  norm_num

theorem jitterC_fix (val scale : ℚ) (lo hi : Option ℚ) (noise : ℚ) :
    rnd1 (jitterC val scale lo hi noise) = jitterC val scale lo hi noise :=
  rnd1_rnd1 _

theorem jitterC_le_hi (val scale : ℚ) (lo : Option ℚ) (hi noise : ℚ)
    (hfix : rnd1 hi = hi) : jitterC val scale lo (some hi) noise ≤ hi := by
  unfold jitterC clampOpt
  calc rnd1 (min hi _) ≤ rnd1 hi := rnd1_mono (min_le_left _ _)
    _ = hi := hfix

theorem jitterC_ge_lo (val scale : ℚ) (lo hi noise : ℚ) (hlohi : lo ≤ hi)
    (hfix : rnd1 lo = lo) : lo ≤ jitterC val scale (some lo) (some hi) noise := by
  unfold jitterC clampOpt
  have h1 : lo ≤ min hi (max lo (val + scale * noise)) :=
    le_min hlohi (le_max_left _ _)
  calc lo = rnd1 lo := hfix.symm
    _ ≤ rnd1 (min hi (max lo (val + scale * noise))) := rnd1_mono h1

/- ────────────────────────────────────────────────────────────────────
src/data/loader.py, engineer_features (lines 127-133): the per-station
lagged 7-day rolling mean
  df.groupby("station_id")[col].transform(
      lambda s: s.shift(1).rolling(7, min_periods=1).mean())
──────────────────────────────────────────────────────────────────── -/

/-- One featured-dataset row, restricted to the station key and the
three columns the rolling transform is applied to. -/
structure FRow where
  station : String
  RR : Option ℚ
  Tavg : Option ℚ
  RH_avg : Option ℚ
deriving DecidableEq

/-- pandas Series.shift(1): a leading NaN, everything moved one slot
down, the last value dropped; the length is preserved. -/
def shift1 (s : List (Option ℚ)) : List (Option ℚ) :=
  (none :: s).take s.length

/-- The non-NaN values inside the length-7 window ending at position k
(pandas rolling(7)). -/
def windowVals (s : List (Option ℚ)) (k : ℕ) : List ℚ :=
  ((s.take (k + 1)).drop (k + 1 - 7)).filterMap id

/-- Mean of a list of values, NaN (none) when the list is empty: this is
what rolling(...).mean() with min_periods=1 yields at each position. -/
def meanOpt (l : List ℚ) : Option ℚ :=
  if l.isEmpty then none else some (l.sum / l.length)

/-- The rolling-mean output at position k of the shifted series. -/
def rollMeanAt (s : List (Option ℚ)) (k : ℕ) : Option ℚ :=
  meanOpt (windowVals s k)

/-- The groupby group of a station: the column values of the rows of
that station, in dataframe order. -/
def groupSeries (f : FRow → Option ℚ) (rows : List FRow) (st : String) :
    List (Option ℚ) :=
  (rows.filter (fun r => r.station == st)).map f

/-- The within-group position of row i: how many earlier rows share its
station. -/
def groupPos (rows : List FRow) (i : ℕ) (st : String) : ℕ :=
  ((rows.take i).filter (fun r => r.station == st)).length

/-- The transform result at row i for column f: shift, window, mean,
evaluated at the position of row i inside the group of its station. -/
def roll7 (f : FRow → Option ℚ) (rows : List FRow) (i : ℕ) : Option ℚ :=
  match rows[i]? with
  | none => none
  | some r => rollMeanAt (shift1 (groupSeries f rows r.station))
      (groupPos rows i r.station)

/-- The RR_roll7 column. -/
def RR_roll7 (rows : List FRow) (i : ℕ) : Option ℚ := roll7 FRow.RR rows i

/-- The Tavg_roll7 column. -/
def Tavg_roll7 (rows : List FRow) (i : ℕ) : Option ℚ := roll7 FRow.Tavg rows i

/-- The RH_avg_roll7 column. -/
def RH_avg_roll7 (rows : List FRow) (i : ℕ) : Option ℚ := roll7 FRow.RH_avg rows i

/-- The last n entries of a list. -/
def lastN (n : ℕ) (l : List (Option ℚ)) : List (Option ℚ) :=
  l.drop (l.length - n)

/-- The column values of the same-station rows strictly before row i,
in order. -/
def priorVals (f : FRow → Option ℚ) (rows : List FRow) (i : ℕ) (st : String) :
    List (Option ℚ) :=
  ((rows.take i).filter (fun r => r.station == st)).map f

/-- The claim-side reading of the rolling feature: the mean of the
non-missing among the up-to-7 most recent same-station strictly earlier
values, missing when there are none. -/
def roll7Spec (f : FRow → Option ℚ) (rows : List FRow) (i : ℕ) : Option ℚ :=
  match rows[i]? with
  | none => none
  | some r => meanOpt ((lastN 7 (priorVals f rows i r.station)).filterMap id)

/- ────────────────────────────────────────────────────────────────────
src/data/loader.py, load_csv / _validate_and_clean (lines 35-110)
──────────────────────────────────────────────────────────────────── -/

/-- The numeric columns that carry a validity range (VALID_RANGES). -/
inductive NumField where
  | Tn | Tx | Tavg | RH_avg | RR | ss | ff_x | ff_avg | ddd_x
deriving DecidableEq

/-- The VALID_RANGES table of loader.py. -/
def VALID_RANGES : NumField → ℚ × ℚ
  | .Tn => (-10, 50)
  | .Tx => (-10, 60)
  | .Tavg => (-10, 55)
  | .RH_avg => (0, 100)
  | .RR => (0, 1000)
  | .ss => (0, 24)
  | .ff_x => (0, 100)
  | .ff_avg => (0, 100)
  | .ddd_x => (0, 360)

/-- A raw input row after the pandas parsing steps that precede the
cleaning logic: dateParsed is the day-first to_datetime result (none for
an unparseable date), the numeric cells are the to_numeric results (none
for a cell that failed coercion or was empty), station_id is the raw
identifier text. -/
structure RawRow where
  dateParsed : Option ℤ
  Tn : Option ℚ
  Tx : Option ℚ
  Tavg : Option ℚ
  RH_avg : Option ℚ
  RR : Option ℚ
  ss : Option ℚ
  ff_x : Option ℚ
  ff_avg : Option ℚ
  ddd_x : Option ℚ
  station_id : String
deriving DecidableEq

/-- A cleaned row: the date is now known parseable. -/
structure CleanRow where
  date : ℤ
  Tn : Option ℚ
  Tx : Option ℚ
  Tavg : Option ℚ
  RH_avg : Option ℚ
  RR : Option ℚ
  ss : Option ℚ
  ff_x : Option ℚ
  ff_avg : Option ℚ
  ddd_x : Option ℚ
  station_id : String
deriving DecidableEq

/-- Replace an out-of-range value by missing:
mask = (df[col] < lo) | (df[col] > hi); df.loc[mask, col] = np.nan.
A missing cell stays missing (NaN comparisons are False). -/
def clampCell (f : NumField) (v : Option ℚ) : Option ℚ :=
  match v with
  | none => none
  | some x =>
      if x < (VALID_RANGES f).1 ∨ x > (VALID_RANGES f).2 then none else some x

/-- Leading and trailing whitespace removal on a character list. -/
def trimChars (l : List Char) : List Char :=
  ((l.dropWhile Char.isWhitespace).reverse.dropWhile Char.isWhitespace).reverse

/-- Python str.strip() / pandas str.strip(): trim surrounding
whitespace. -/
def strTrim (s : String) : String := String.mk (trimChars s.data)

/-- station_id sanitization: strip, then drop every character that is
not alphanumeric, underscore or hyphen (regex [^\w\-] removal). -/
def sanitizeStation (s : String) : String :=
  String.mk ((trimChars s.data).filter
    (fun c => c.isAlphanum || c == '_' || c == '-'))

/-- The per-row cleaning work on a row whose date parsed to d: range
nulling on every ranged column and station sanitization.  The optional
ddd_car text normalization is outside the model (no claim concerns it). -/
def cleanRow (r : RawRow) (d : ℤ) : CleanRow :=
  { date := d
    Tn := clampCell .Tn r.Tn
    Tx := clampCell .Tx r.Tx
    Tavg := clampCell .Tavg r.Tavg
    RH_avg := clampCell .RH_avg r.RH_avg
    RR := clampCell .RR r.RR
    ss := clampCell .ss r.ss
    ff_x := clampCell .ff_x r.ff_x
    ff_avg := clampCell .ff_avg r.ff_avg
    ddd_x := clampCell .ddd_x r.ddd_x
    station_id := sanitizeStation r.station_id }

/-- Drop a row with an unparseable date (dropna on date), clean the
rest. -/
def cleanStep (r : RawRow) : Option CleanRow :=
  match r.dateParsed with
  | none => none
  | some d => some (cleanRow r d)

/-- A raw table: the column header (as read, before trimming) plus the
rows. -/
structure RawTable where
  cols : List String
  rows : List RawRow

/-- REQUIRED_COLUMNS of loader.py. -/
def REQUIRED_COLUMNS : List String :=
  ["date", "Tn", "Tx", "Tavg", "RH_avg", "RR", "station_id"]

/-- The whitespace-trimmed column names. -/
def trimmedCols (t : RawTable) : List String :=
  t.cols.map strTrim

/-- The required columns absent from the trimmed header. -/
def missingCols (t : RawTable) : List String :=
  REQUIRED_COLUMNS.filter (fun c => !(trimmedCols t).contains c)

/-- _validate_and_clean of loader.py: fail when required columns are
missing, drop rows with unparseable dates, null out-of-range values,
sanitize station_id, sort ascending by date (stable, like
sort_values). -/
def validateAndClean (t : RawTable) : Except String (List CleanRow) :=
  if missingCols t ≠ [] then
    Except.error "Dataset missing required columns"
  else
    Except.ok ((t.rows.filterMap cleanStep).mergeSort
      (fun a b => decide (a.date ≤ b.date)))

/- ────────────────────────────────────────────────────────────────────
src/models/trainer.py, train (lines 60-102) and predict (lines 111-126)
──────────────────────────────────────────────────────────────────── -/

/-- One feature vector as handed to a fitted pipeline (the selected
columns of the single input row). -/
abbrev FeatVec := List ℚ

/-- A fitted classifier pipeline.  proba is predict_proba positive-class
output; sklearn guarantees it is a probability in [0, 1]. -/
structure Classifier where
  proba : FeatVec → ℚ
  proba_nonneg : ∀ x, 0 ≤ proba x
  proba_le_one : ∀ x, proba x ≤ 1

/-- A fitted regressor pipeline: an unconstrained real-valued predictor
(it may output negative values). -/
abbrev Regressor := FeatVec → ℚ

/-- The two artifact slots on disk (CLF_PATH, REG_PATH): none models a
missing file. -/
structure ModelStore where
  clf : Option Classifier
  reg : Option Regressor

/-- One training row: its RR cell (optional, NaN possible) and its
feature cells. -/
structure TrainRow where
  RR : Option ℚ
  feats : FeatVec
deriving DecidableEq

/-- df["RR"] > 0.5 on one row: NaN compares False. -/
def isRainy (r : TrainRow) : Bool :=
  match r.RR with
  | some v => decide ((1:ℚ)/2 < v)
  | none => false

/-- The training dataframe: its column set plus its rows. -/
structure TrainFrame where
  cols : List String
  rows : List TrainRow

/-- FEATURE_COLS of trainer.py. -/
def FEATURE_COLS : List String :=
  ["Tn", "Tx", "Tavg", "RH_avg", "ss", "ff_x", "ff_avg",
   "month_sin", "month_cos", "doy_sin", "doy_cos",
   "RR_roll7", "Tavg_roll7", "RH_avg_roll7"]

/-- avail = [c for c in FEATURE_COLS if c in df.columns]. -/
def availCols (df : TrainFrame) : List String :=
  FEATURE_COLS.filter (fun c => df.cols.contains c)

/-- Number of rainy rows: (df["RR"] > 0.5).sum(). -/
def rainyCount (df : TrainFrame) : ℕ :=
  (df.rows.filter isRainy).length

/-- The training metrics dict: mae and r2 are set to None when the
regressor is skipped. -/
structure Metrics where
  accuracy : ℚ
  roc_auc : ℚ
  mae : Option ℚ
  r2 : Option ℚ
deriving DecidableEq

/-- The sklearn fitting and evaluation steps, opaque to this model: the
fitted pipelines for given training rows and the held-out metric values.
Everything proved below holds for every oracle. -/
structure FitOracle where
  fitClf : List TrainRow → Classifier
  fitReg : List TrainRow → Regressor
  acc : ℚ
  auc : ℚ
  maeV : ℚ
  r2V : ℚ

/-- train of trainer.py, as a transition on the artifact store: raise on
fewer than 6 recognized feature columns; always fit and dump the
classifier; fit, evaluate and dump the regressor only when more than 50
rainy rows exist, otherwise leave the regressor slot untouched and set
mae and r2 to None. -/
def train (o : FitOracle) (store : ModelStore) (df : TrainFrame) :
    Except String (ModelStore × Metrics) :=
  if (availCols df).length < 6 then
    Except.error "Not enough feature columns."
  else
    let clf := o.fitClf df.rows
    if 50 < rainyCount df then
      Except.ok (⟨some clf, some (o.fitReg (df.rows.filter isRainy))⟩,
        ⟨o.acc, o.auc, some o.maeV, some o.r2V⟩)
    else
      Except.ok (⟨some clf, store.reg⟩, ⟨o.acc, o.auc, none, none⟩)

/-- predict of trainer.py: raise when no classifier artifact exists;
probability from predict_proba; volume only when prob > 0.5 and a
regressor artifact exists, floored at 0 by max(0.0, ...). -/
def predict (store : ModelStore) (row : FeatVec) :
    Except String (ℚ × Option ℚ) :=
  match store.clf with
  | none => Except.error "Model not trained yet."
  | some clf =>
      let prob := clf.proba row
      let mm : Option ℚ :=
        if (1:ℚ)/2 < prob then
          match store.reg with
          | some reg => some (max 0 (reg row))
          | none => none
        else none
      Except.ok (prob, mm)

/-- The probability of a prediction result (none on error). -/
def resProb (r : Except String (ℚ × Option ℚ)) : Option ℚ :=
  match r with
  | Except.ok (p, _) => some p
  | Except.error _ => none

/-- The volume of a prediction result (none on error or when absent). -/
def resVol (r : Except String (ℚ × Option ℚ)) : Option ℚ :=
  match r with
  | Except.ok (_, mm) => mm
  | Except.error _ => none

/- ────────────────────────────────────────────────────────────────────
src/models/trainer.py, get_monthly_stats (lines 158-180)
──────────────────────────────────────────────────────────────────── -/

/-- The ten med() statistics of one monthly entry.  In the modelled
pipeline every one of these columns exists (engineer_features creates
the roll7 columns), so the source fallbacks med("RR") etc. for a missing
roll7 column are dead branches here. -/
inductive StatField where
  | Tn | Tx | Tavg | RH_avg | ss | ff_x | ff_avg
  | RR_roll7 | Tavg_roll7 | RH_avg_roll7
deriving DecidableEq

/-- One featured row as seen by get_monthly_stats: its calendar month,
its RR cell, and its statistic cells. -/
structure ProfRow where
  month : ℕ
  RR : Option ℚ
  stat : StatField → Option ℚ

/-- df["RR"] > 0.5 on a profile row (NaN is False). -/
def profRainy (r : ProfRow) : Bool :=
  match r.RR with
  | some v => decide ((1:ℚ)/2 < v)
  | none => false

/-- The month subset with the sparse-month fallback: rows of that
calendar month, or the whole dataframe when fewer than 5 such rows
exist. -/
def monthSubset (df : List ProfRow) (m : ℕ) : List ProfRow :=
  let s := df.filter (fun r => r.month == m)
  if s.length < 5 then df else s

/-- The non-missing values of a column over a subset. -/
def nonMissing (l : List (Option ℚ)) : List ℚ :=
  l.filterMap id

/-- pandas Series.median over a nonempty value list: middle of the
sorted values, or the mean of the two middles for an even count. -/
def medianQ (l : List ℚ) : ℚ :=
  let s := l.mergeSort (fun a b => decide (a ≤ b))
  if s.length % 2 = 1 then s.getD (s.length / 2) 0
  else (s.getD (s.length / 2 - 1) 0 + s.getD (s.length / 2) 0) / 2

/-- med(col) of get_monthly_stats: the median when any non-missing value
exists in the subset, else the 0.0 default. -/
def medStat (sub : List ProfRow) (f : StatField) : ℚ :=
  let vals := nonMissing (sub.map (fun r => r.stat f))
  if vals.isEmpty then 0 else medianQ vals

/-- One value of the stats dict.  rain_prob is float((m["RR"]>0.5).mean())
and avg_rain_mm is float(m.loc[m["RR"]>0.5,"RR"].mean()); a mean over an
empty selection is NaN, modelled as none. -/
structure MonthEntry where
  med : StatField → ℚ
  rain_prob : Option ℚ
  avg_rain_mm : Option ℚ

/-- The entry get_monthly_stats computes for one month. -/
def monthEntry (df : List ProfRow) (m : ℕ) : MonthEntry :=
  let sub := monthSubset df m
  let rainy := sub.filter profRainy
  { med := fun f => medStat sub f
    rain_prob :=
      if sub.isEmpty then none
      else some (((sub.filter profRainy).length : ℚ) / sub.length)
    avg_rain_mm :=
      if rainy.isEmpty then none
      else some ((rainy.filterMap (fun r => r.RR)).sum / (rainy.filterMap (fun r => r.RR)).length) }

/-- get_monthly_stats: the dict keyed by the months 1 to 12. -/
def getMonthlyStats (df : List ProfRow) : List (ℕ × MonthEntry) :=
  (List.range' 1 12).map (fun m => (m, monthEntry df m))

/- ────────────────────────────────────────────────────────────────────
Theorems.  C9 and C10: the intraday rain-window heuristic.
──────────────────────────────────────────────────────────────────── -/

/-- C9 (amended): the heuristic returns the all-absent no-rain window
exactly when probability < 0.3; the wet season is months 11, 12, 1, 2,
3, 4; for probability at least 0.3, volume above 40mm yields a strictly
wider window whose start is never later than the moderate (15 to 40mm)
start, strictly earlier in wet season (in dry season both start at 13);
the moderate window differs from the light or absent one; in wet season
with probability above 0.7 the start shifts exactly 2 hours earlier
floored at hour 9; and the heuristic is a pure function of
(probability, volume, month). -/
theorem rain_hours_table :
    (∀ (prob : ℚ) (mm : Option ℚ) (month : ℕ),
        estimateRainHours prob mm month
          = ⟨none, none, none, "Tidak ada hujan"⟩ ↔ prob < 3/10) ∧
    (∀ month : ℕ, wetSeason month = true ↔
        month = 11 ∨ month = 12 ∨ month = 1 ∨ month = 2 ∨ month = 3 ∨
        month = 4) ∧
    (∀ (prob : ℚ) (month : ℕ) (vH vM : ℚ),
        3/10 ≤ prob → 40 < vH → 15 < vM → vM ≤ 40 →
        endOf (rainHourCore prob (some vH) month)
            - startOf (rainHourCore prob (some vH) month)
          > endOf (rainHourCore prob (some vM) month)
            - startOf (rainHourCore prob (some vM) month)
        ∧ startOf (rainHourCore prob (some vH) month)
            ≤ startOf (rainHourCore prob (some vM) month)
        ∧ (wetSeason month = true →
            startOf (rainHourCore prob (some vH) month)
              < startOf (rainHourCore prob (some vM) month))
        ∧ (wetSeason month = false →
            startOf (rainHourCore prob (some vH) month)
              = startOf (rainHourCore prob (some vM) month))) ∧
    (∀ (prob : ℚ) (month : ℕ) (vM vL : ℚ),
        3/10 ≤ prob → 15 < vM → vM ≤ 40 → vL ≤ 15 →
        rainHourCore prob (some vM) month ≠ rainHourCore prob (some vL) month
        ∧ rainHourCore prob (some vM) month ≠ rainHourCore prob none month) ∧
    (∀ (month : ℕ) (mm : Option ℚ) (p1 p2 : ℚ), wetSeason month = true →
        3/10 ≤ p1 → p1 ≤ 7/10 → 7/10 < p2 →
        startOf (rainHourCore p2 mm month)
          = max 9 (startOf (rainHourCore p1 mm month) - 2)
        ∧ 9 ≤ startOf (rainHourCore p2 mm month)) ∧
    (∀ (prob : ℚ) (mm : Option ℚ) (month : ℕ),
        estimateRainHours prob mm month = estimateRainHours prob mm month) := by
  refine ⟨?_, ?_, ?_, ?_, ?_, fun _ _ _ => rfl⟩
  · intro prob mm month
    by_cases hp : prob < 3/10
    · simp [estimateRainHours, rainHourCore, hp]
    · simp [estimateRainHours, rainHourCore, hp, RainWindow.mk.injEq]
  · intro month
    simp only [wetSeason, List.contains, List.elem_iff]
    simp [or_assoc]
  · intro prob month vH vM h03 hH hM1 hM2
    have hnl : ¬ prob < 3/10 := not_lt.mpr h03
    have e1 : truthyGT (some vH) 40 = true := by
      simp only [truthyGT, Bool.and_eq_true, Bool.not_eq_true',
        beq_eq_false_iff_ne, decide_eq_true_eq]
      exact ⟨ne_of_gt (by linarith), hH⟩
    have hM2n : ¬ ((40:ℚ) < vM) := not_lt.mpr hM2
    have e2 : truthyGT (some vM) 40 = false := by
      simp [truthyGT, hM2n]
    have e3 : truthyGT (some vM) 15 = true := by
      simp only [truthyGT, Bool.and_eq_true, Bool.not_eq_true',
        beq_eq_false_iff_ne, decide_eq_true_eq]
      exact ⟨ne_of_gt (by linarith), hM1⟩
    cases hw : wetSeason month <;> cases hp7 : decide ((7:ℚ)/10 < prob) <;>
      simp [rainHourCore, hnl, e1, e2, e3, hw, hp7, startOf, endOf]
  · intro prob month vM vL h03 hM1 hM2 hL
    have hnl : ¬ prob < 3/10 := not_lt.mpr h03
    have hM2n : ¬ ((40:ℚ) < vM) := not_lt.mpr hM2
    have e2 : truthyGT (some vM) 40 = false := by simp [truthyGT, hM2n]
    have e3 : truthyGT (some vM) 15 = true := by
      simp only [truthyGT, Bool.and_eq_true, Bool.not_eq_true',
        beq_eq_false_iff_ne, decide_eq_true_eq]
      exact ⟨ne_of_gt (by linarith), hM1⟩
    have hL40 : ¬ ((40:ℚ) < vL) := not_lt.mpr (by linarith)
    have hL15 : ¬ ((15:ℚ) < vL) := not_lt.mpr hL
    have e4 : truthyGT (some vL) 40 = false := by simp [truthyGT, hL40]
    have e5 : truthyGT (some vL) 15 = false := by simp [truthyGT, hL15]
    have e6 : truthyGT none 40 = false := rfl
    have e7 : truthyGT none 15 = false := rfl
    cases hw : wetSeason month <;> cases hp7 : decide ((7:ℚ)/10 < prob) <;>
      simp [rainHourCore, hnl, e2, e3, e4, e5, e6, e7, hw, hp7]
  · intro month mm p1 p2 hw h1 h2 h3
    have hnl1 : ¬ p1 < 3/10 := not_lt.mpr h1
    have hnl2 : ¬ p2 < 3/10 := not_lt.mpr (by linarith)
    have d1 : decide ((7:ℚ)/10 < p1) = false := decide_eq_false (not_lt.mpr h2)
    have d2 : decide ((7:ℚ)/10 < p2) = true := decide_eq_true h3
    cases h40 : truthyGT mm 40 <;> cases h15 : truthyGT mm 15 <;>
      simp [rainHourCore, hnl1, hnl2, hw, d1, d2, h40, h15, startOf]

/-- C9 counterexample: dry season (June), probability 0.5, heavy volume
50mm versus moderate volume 20mm: both windows start at hour 13, so the
heavy window is not earlier than the moderate one as the claim states. -/
theorem rain_hours_cex :
    startOf (rainHourCore (1/2) (some 50) 6) = 13 ∧
    startOf (rainHourCore (1/2) (some 20) 6) = 13 ∧
    (rainHourCore (1/2) (some 50) 6).isSome = true ∧
    (rainHourCore (1/2) (some 20) 6).isSome = true ∧
    ¬ startOf (rainHourCore (1/2) (some 50) 6)
        < startOf (rainHourCore (1/2) (some 20) 6) := by
  have hnl : ¬ ((1:ℚ)/2 < 3/10) := by norm_num
  have e1 : truthyGT (some (50:ℚ)) 40 = true := by
    simp only [truthyGT, Bool.and_eq_true, Bool.not_eq_true',
      beq_eq_false_iff_ne, decide_eq_true_eq]
    norm_num
  have e2 : truthyGT (some (20:ℚ)) 40 = false := by
    have : ¬ ((40:ℚ) < 20) := by norm_num
    simp [truthyGT, this]
  have e3 : truthyGT (some (20:ℚ)) 15 = true := by
    simp only [truthyGT, Bool.and_eq_true, Bool.not_eq_true',
      beq_eq_false_iff_ne, decide_eq_true_eq]
    norm_num
  have hw : wetSeason 6 = false := by decide
  have hp7 : decide ((7:ℚ)/10 < 1/2) = false := decide_eq_false (by norm_num)
  have hnl2 : ¬ ((2⁻¹:ℚ) < 3/10) := by norm_num
  have h32 : (3:ℚ)/10 ≤ 2⁻¹ := by norm_num
  simp [rainHourCore, hnl, hnl2, h32, e1, e2, e3, hw, hp7, startOf]

/-- C10: whenever probability is at least 0.3 the heuristic returns
concrete hours with start at most peak at most end, every hour between
9 and 19, and each rendered as a zero-padded five-character HH:00
string. -/
theorem rain_hours_bounds (prob : ℚ) (mm : Option ℚ) (month : ℕ)
    (h : 3/10 ≤ prob) :
    (rainHourCore prob mm month).isSome = true ∧
    startOf (rainHourCore prob mm month) ≤ peakOf (rainHourCore prob mm month) ∧
    peakOf (rainHourCore prob mm month) ≤ endOf (rainHourCore prob mm month) ∧
    9 ≤ startOf (rainHourCore prob mm month) ∧
    startOf (rainHourCore prob mm month) ≤ 19 ∧
    9 ≤ peakOf (rainHourCore prob mm month) ∧
    peakOf (rainHourCore prob mm month) ≤ 19 ∧
    9 ≤ endOf (rainHourCore prob mm month) ∧
    endOf (rainHourCore prob mm month) ≤ 19 ∧
    (estimateRainHours prob mm month).start
      = some (fmtHour (startOf (rainHourCore prob mm month))) ∧
    (estimateRainHours prob mm month).peak
      = some (fmtHour (peakOf (rainHourCore prob mm month))) ∧
    (estimateRainHours prob mm month).stop
      = some (fmtHour (endOf (rainHourCore prob mm month))) ∧
    (fmtHour (startOf (rainHourCore prob mm month))).length = 5 ∧
    (fmtHour (peakOf (rainHourCore prob mm month))).length = 5 ∧
    (fmtHour (endOf (rainHourCore prob mm month))).length = 5 := by
  have hnl : ¬ prob < 3/10 := not_lt.mpr h
  cases h40 : truthyGT mm 40 <;> cases h15 : truthyGT mm 15 <;>
    cases hw : wetSeason month <;> cases hp7 : decide ((7:ℚ)/10 < prob) <;>
      simp [rainHourCore, estimateRainHours, hnl, h40, h15, hw, hp7,
        startOf, endOf, peakOf, fmtHour] <;> decide

/-- C10 witness at probability 0.5, absent volume, June. -/
theorem rain_hours_bounds_witness :
    (rainHourCore (1/2) none 6).isSome = true :=
  (rain_hours_bounds (1/2) none 6 (by norm_num)).1

/- ────────────────────────────────────────────────────────────────────
C7 and C8: the deterministic estimator.
──────────────────────────────────────────────────────────────────── -/

/-- C7: the synthesized features are a pure function of the profile
state and the (year, month, day) triple, so two calls with identical
target date and profile state return identical values; the RNG seed is
year * 10000 + month * 100 + day; and on calendar-valid dates two
different dates always get different seeds. -/
theorem infer_deterministic :
    (∀ (draw : ℕ → ℕ → ℚ) (stats : Option (ℕ → BaseVals)) (d e : SimDate),
        d.year = e.year → d.month = e.month → d.day = e.day →
        inferFeatures draw stats d = inferFeatures draw stats e) ∧
    (∀ d : SimDate, seedOf d = d.year * 10000 + d.month * 100 + d.day) ∧
    (∀ d e : SimDate, validDate d → validDate e → d ≠ e →
        seedOf d ≠ seedOf e) := by
  refine ⟨?_, fun _ => rfl, ?_⟩
  · intro draw stats d e hy hm hd
    cases d; cases e; simp_all
  · intro d e hd he hne hseed
    apply hne
    cases d; cases e
    simp only [validDate] at hd he
    simp only [seedOf] at hseed
    simp only [SimDate.mk.injEq]
    omega

/-- C7 witness: January 2nd and January 3rd of 2024 have different
seeds. -/
theorem infer_deterministic_witness :
    seedOf ⟨2024, 1, 2⟩ ≠ seedOf ⟨2024, 1, 3⟩ :=
  infer_deterministic.2.2 ⟨2024, 1, 2⟩ ⟨2024, 1, 3⟩
    ⟨by norm_num, by norm_num, by norm_num, by norm_num⟩
    ⟨by norm_num, by norm_num, by norm_num, by norm_num⟩
    (by decide)

/-- C8: every synthesized row satisfies Tn ≤ Tavg ≤ Tx and
ff_avg ≤ ff_x after perturbation, cross-clamping and rounding, for
every draw stream, every profile state and every date. -/
theorem infer_physical_order (draw : ℕ → ℕ → ℚ)
    (stats : Option (ℕ → BaseVals)) (d : SimDate) :
    (inferFeatures draw stats d).Tn ≤ (inferFeatures draw stats d).Tavg ∧
    (inferFeatures draw stats d).Tavg ≤ (inferFeatures draw stats d).Tx ∧
    (inferFeatures draw stats d).ff_avg ≤ (inferFeatures draw stats d).ff_x := by
  have h50 : rnd1 (50:ℚ) = 50 := by simpa using rnd1_intCast 50
  simp only [inferFeatures]
  refine ⟨?_, ?_, ?_⟩
  · exact jitterC_le_hi _ _ _ _ _ (jitterC_fix _ _ _ _ _)
  · exact jitterC_ge_lo _ _ _ _ _
      (le_trans (jitterC_le_hi _ _ _ _ _ h50) (by norm_num))
      (jitterC_fix _ _ _ _ _)
  · exact jitterC_le_hi _ _ _ _ _ (jitterC_fix _ _ _ _ _)

/- ────────────────────────────────────────────────────────────────────
C1: the lagged per-station rolling window.
──────────────────────────────────────────────────────────────────── -/

theorem window_drop (P : List (Option ℚ)) :
    ((none :: P).drop (P.length + 1 - 7)).filterMap id
      = (P.drop (P.length - 7)).filterMap id := by
  rcases le_or_lt P.length 6 with h | h
  · have h1 : P.length + 1 - 7 = 0 := by omega
    have h2 : P.length - 7 = 0 := by omega
    simp [h1, h2]
  · have h1 : P.length + 1 - 7 = (P.length - 7) + 1 := by omega
    rw [h1, List.drop_succ_cons]

theorem rollMean_shift (P S : List (Option ℚ)) (a : Option ℚ) :
    rollMeanAt (shift1 (P ++ a :: S)) P.length
      = meanOpt ((lastN 7 P).filterMap id) := by
  have hlen : P.length + 1 ≤ (P ++ a :: S).length := by
    simp [List.length_append]
  unfold rollMeanAt windowVals shift1 lastN
  rw [List.take_take, min_eq_left hlen, List.take_succ_cons, List.take_left]
  exact congrArg meanOpt (window_drop P)

theorem filter_decomp (rows : List FRow) (i : ℕ) (h : i < rows.length)
    (p : FRow → Bool) (hp : p rows[i] = true) :
    rows.filter p
      = (rows.take i).filter p ++ rows[i] :: (rows.drop (i + 1)).filter p := by
  conv_lhs => rw [← List.take_append_drop i rows]
  rw [List.drop_eq_getElem_cons h, List.filter_append,
    List.filter_cons_of_pos hp]

theorem roll7_eq_spec (f : FRow → Option ℚ) (rows : List FRow) (i : ℕ)
    (h : i < rows.length) : roll7 f rows i = roll7Spec f rows i := by
  have hget : rows[i]? = some rows[i] := List.getElem?_eq_getElem h
  have e1 : roll7 f rows i
      = rollMeanAt (shift1 (groupSeries f rows rows[i].station))
          (groupPos rows i rows[i].station) := by
    unfold roll7; rw [hget]
  have e2 : roll7Spec f rows i
      = meanOpt ((lastN 7 (priorVals f rows i rows[i].station)).filterMap id) := by
    unfold roll7Spec; rw [hget]
  rw [e1, e2]
  have hp : (fun r => r.station == rows[i].station) rows[i] = true := by simp
  have hsplit := filter_decomp rows i h
    (fun r => r.station == rows[i].station) hp
  unfold groupSeries groupPos priorVals
  rw [hsplit, List.map_append, List.map_cons]
  rw [show ((rows.take i).filter
        (fun r => r.station == rows[i].station)).length
      = (((rows.take i).filter
        (fun r => r.station == rows[i].station)).map f).length
    from (List.length_map _ _).symm]
  exact rollMean_shift _ _ _

theorem take_set_eq {α : Type} (l : List α) (i : ℕ) (a : α) :
    (l.set i a).take i = l.take i := by
  apply List.ext_getElem
  · simp [List.length_take, List.length_set]
  · intro n h1 h2
    rw [List.getElem_take, List.getElem_take]
    apply List.getElem_set_ne
    simp only [List.length_take, List.length_set] at h1
    omega

theorem roll7_set (f : FRow → Option ℚ) (rows : List FRow) (i : ℕ)
    (h : i < rows.length) (r2 : FRow) (hst : r2.station = rows[i].station) :
    roll7 f (rows.set i r2) i = roll7 f rows i := by
  have h2 : i < (rows.set i r2).length := by rw [List.length_set]; exact h
  rw [roll7_eq_spec f _ i h2, roll7_eq_spec f rows i h]
  have hgs : (rows.set i r2)[i]? = some r2 := List.getElem?_set_self h
  have e1 : roll7Spec f (rows.set i r2) i
      = meanOpt ((lastN 7 (priorVals f (rows.set i r2) i r2.station)).filterMap id) := by
    unfold roll7Spec; rw [hgs]
  have e2 : roll7Spec f rows i
      = meanOpt ((lastN 7 (priorVals f rows i rows[i].station)).filterMap id) := by
    unfold roll7Spec; rw [List.getElem?_eq_getElem h]
  rw [e1, e2, hst]
  unfold priorVals
  rw [take_set_eq]

/-- C1: each rolling feature equals the mean of the non-missing among
the values of the up-to-7 most recent same-station rows strictly before
the row (the row itself excluded by the one-step shift); with no prior
same-station row the feature is missing; and overwriting the own value
of a row (its RR, Tavg or RH_avg respectively) never changes that same
row's rolling feature. -/
theorem roll7_causal (rows : List FRow) (i : ℕ) (h : i < rows.length) :
    (RR_roll7 rows i = roll7Spec FRow.RR rows i) ∧
    (Tavg_roll7 rows i = roll7Spec FRow.Tavg rows i) ∧
    (RH_avg_roll7 rows i = roll7Spec FRow.RH_avg rows i) ∧
    (priorVals FRow.RR rows i rows[i].station = [] →
      RR_roll7 rows i = none) ∧
    (∀ v : Option ℚ,
      RR_roll7 (rows.set i { rows[i] with RR := v }) i = RR_roll7 rows i) ∧
    (∀ v : Option ℚ,
      Tavg_roll7 (rows.set i { rows[i] with Tavg := v }) i
        = Tavg_roll7 rows i) ∧
    (∀ v : Option ℚ,
      RH_avg_roll7 (rows.set i { rows[i] with RH_avg := v }) i
        = RH_avg_roll7 rows i) := by
  refine ⟨roll7_eq_spec _ rows i h, roll7_eq_spec _ rows i h,
    roll7_eq_spec _ rows i h, ?_, ?_, ?_, ?_⟩
  · intro hprior
    show roll7 FRow.RR rows i = none
    rw [roll7_eq_spec _ rows i h]
    have e2 : roll7Spec FRow.RR rows i
        = meanOpt ((lastN 7 (priorVals FRow.RR rows i
            rows[i].station)).filterMap id) := by
      unfold roll7Spec; rw [List.getElem?_eq_getElem h]
    rw [e2, hprior]
    rfl
  · intro v
    exact roll7_set FRow.RR rows i h _ rfl
  · intro v
    exact roll7_set FRow.Tavg rows i h _ rfl
  · intro v
    exact roll7_set FRow.RH_avg rows i h _ rfl

/-- A first station-A row. -/
def rowA : FRow := ⟨"A", some 4, some 20, some 80⟩

/-- A second station-A row. -/
def rowB : FRow := ⟨"A", some 8, some 30, some 90⟩

/-- A two-row featured dataset of one station. -/
def rowsC1 : List FRow := [rowA, rowB]

/-- C1 witness: on the concrete two-row dataset, overwriting the RR of
the second row does not change the RR_roll7 of that row. -/
theorem roll7_causal_witness :
    RR_roll7 (rowsC1.set 1 { rowB with RR := some 99 }) 1
      = RR_roll7 rowsC1 1 :=
  (roll7_causal rowsC1 1 (by norm_num [rowsC1])).2.2.2.2.1 (some 99)

/- ────────────────────────────────────────────────────────────────────
C4 and C6: the validator.
──────────────────────────────────────────────────────────────────── -/

theorem cleanStep_length (rows : List RawRow) :
    (rows.filterMap cleanStep).length
      = (rows.filter (fun r => r.dateParsed.isSome)).length := by
  induction rows with
  | nil => rfl
  | cons a as ih =>
      cases hd : a.dateParsed <;>
        simp [List.filterMap_cons, List.filter_cons, cleanStep, hd, ih]

/-- C4: with the required columns present after trimming, an input with
no rows, or all of whose rows have unparseable dates, cleans to the
empty dataset with no error raised. -/
theorem empty_input_ok (t : RawTable) (hc : missingCols t = [])
    (h : t.rows = [] ∨ ∀ r ∈ t.rows, r.dateParsed = none) :
    validateAndClean t = Except.ok [] := by
  unfold validateAndClean
  rw [if_neg (by simp [hc])]
  have hkept : t.rows.filterMap cleanStep = [] := by
    rcases h with h | h
    · rw [h]; rfl
    · exact List.filterMap_eq_nil_iff.mpr
        (fun a ha => by unfold cleanStep; rw [h a ha])
  rw [hkept, List.mergeSort_nil]

/-- The header-only empty table. -/
def tEmpty : RawTable := ⟨REQUIRED_COLUMNS, []⟩

/-- C4 witness: the empty table with the required header cleans to the
empty dataset. -/
theorem empty_input_ok_witness : validateAndClean tEmpty = Except.ok [] :=
  empty_input_ok tEmpty (by decide) (Or.inl rfl)

/-- C6: an out-of-range value is replaced by missing (never truncated
to a boundary, never kept), an in-range value is kept unchanged, and a
row nulled this way still survives: the cleaned output has exactly one
row per parseable-date input row and contains the cleaned image of
every such row; in particular Tavg = 999 is cleaned to missing. -/
theorem clamp_to_missing :
    (∀ (f : NumField) (x : ℚ),
        ((x < (VALID_RANGES f).1 ∨ (VALID_RANGES f).2 < x) →
          clampCell f (some x) = none) ∧
        ((VALID_RANGES f).1 ≤ x → x ≤ (VALID_RANGES f).2 →
          clampCell f (some x) = some x)) ∧
    (∀ (t : RawTable) (l : List CleanRow), validateAndClean t = Except.ok l →
        l.length = (t.rows.filter (fun r => r.dateParsed.isSome)).length ∧
        ∀ (r : RawRow) (d : ℤ), r ∈ t.rows → r.dateParsed = some d →
          cleanRow r d ∈ l) ∧
    (∀ (r : RawRow) (d : ℤ), r.Tavg = some 999 →
        (cleanRow r d).Tavg = none) := by
  refine ⟨?_, ?_, ?_⟩
  · intro f x
    constructor
    · intro hx
      simp only [clampCell]
      rw [if_pos hx]
    · intro h1 h2
      simp only [clampCell]
      rw [if_neg (by push_neg; exact ⟨h1, h2⟩)]
  · intro t l hok
    unfold validateAndClean at hok
    by_cases hm : missingCols t ≠ []
    · rw [if_pos hm] at hok
      exact absurd hok (by simp)
    · rw [if_neg hm] at hok
      injection hok with h1
      constructor
      · rw [← h1, (List.mergeSort_perm _ _).length_eq, cleanStep_length]
      · intro r d hr hd
        rw [← h1]
        have hmem : cleanRow r d ∈ t.rows.filterMap cleanStep :=
          List.mem_filterMap.mpr ⟨r, hr, by unfold cleanStep; rw [hd]⟩
        exact ((List.mergeSort_perm _ _).mem_iff).mpr hmem
  · intro r d h999
    show clampCell NumField.Tavg r.Tavg = none
    rw [h999]
    simp only [clampCell]
    rw [if_pos (Or.inr (by norm_num [VALID_RANGES]))]

/-- A raw row whose Tavg is the out-of-range 999. -/
def raw999 : RawRow :=
  ⟨some 0, none, none, some 999, none, none, none, none, none, none, "96001"⟩

/-- C6 witness: 999 is outside the Tavg range and is nulled, and the
concrete row keeps its place with Tavg missing. -/
theorem clamp_to_missing_witness :
    clampCell NumField.Tavg (some 999) = none ∧
    (cleanRow raw999 0).Tavg = none := by
  constructor
  · exact (clamp_to_missing.1 NumField.Tavg 999).1
      (Or.inr (by norm_num [VALID_RANGES]))
  · exact clamp_to_missing.2.2 raw999 0 rfl

/- ────────────────────────────────────────────────────────────────────
C2 and C3: training gate and prediction contract.
──────────────────────────────────────────────────────────────────── -/

/-- C3: predict fails exactly when no classifier artifact exists;
otherwise it returns the classifier probability, which lies in [0, 1],
the volume is present exactly when the probability exceeds 0.5 and a
regressor artifact exists, and any present volume is at least 0. -/
theorem predict_contract (s : ModelStore) (row : FeatVec) :
    ((predict s row).isOk = false ↔ s.clf = none) ∧
    (∀ c : Classifier, s.clf = some c →
      resProb (predict s row) = some (c.proba row) ∧
      0 ≤ c.proba row ∧ c.proba row ≤ 1 ∧
      (resVol (predict s row) ≠ none ↔
        ((1:ℚ)/2 < c.proba row ∧ s.reg ≠ none)) ∧
      (∀ v : ℚ, resVol (predict s row) = some v → 0 ≤ v)) := by
  obtain ⟨oclf, oreg⟩ := s
  constructor
  · cases oclf <;> simp [predict, Except.isOk, Except.toBool]
  · rintro c hc
    cases oclf with
    | none => simp at hc
    | some c0 =>
        have hc2 : c0 = c := by simpa using hc
        subst hc2
        refine ⟨rfl, c0.proba_nonneg row, c0.proba_le_one row, ?_, ?_⟩
        · by_cases hp : (2⁻¹:ℚ) < c0.proba row <;> cases oreg <;>
            simp [predict, resVol, hp]
        · intro v hv
          by_cases hp : (2⁻¹:ℚ) < c0.proba row
          · cases oreg with
            | none => simp [predict, resVol, hp] at hv
            | some rg =>
                simp [predict, resVol, hp] at hv
                rw [← hv]
                exact le_max_left 0 _
          · simp [predict, resVol, hp] at hv

/-- The constant-probability-one classifier. -/
def oneClf : Classifier := ⟨fun _ => 1, fun _ => zero_le_one, fun _ => le_refl 1⟩

/-- A regressor that always predicts 7mm. -/
def regSeven : Regressor := fun _ => 7

/-- C3 witness: with a classifier artifact but no regressor artifact,
prediction succeeds with the classifier probability and an absent
volume. -/
theorem predict_contract_witness :
    resProb (predict ⟨some oneClf, none⟩ []) = some (oneClf.proba []) ∧
    resVol (predict ⟨some oneClf, none⟩ []) = none := by
  have h := (predict_contract ⟨some oneClf, none⟩ []).2 oneClf rfl
  refine ⟨h.1, ?_⟩
  by_contra hne
  exact ((h.2.2.2.1).mp hne).2 rfl

/-- C2 (amended): training on a dataframe with at most 50 rainy rows
persists a classifier but leaves the regressor artifact slot exactly as
it was (it does not delete a stale regressor), reports mae and r2 as
absent, and when no regressor artifact was persisted beforehand every
subsequent prediction succeeds with an absent volume. -/
theorem train_regressor_gate (o : FitOracle) (s : ModelStore)
    (df : TrainFrame) (res : ModelStore × Metrics)
    (hr : rainyCount df ≤ 50)
    (hok : train o s df = Except.ok res) :
    res.1.reg = s.reg ∧ res.2.mae = none ∧ res.2.r2 = none ∧
    res.1.clf = some (o.fitClf df.rows) ∧
    (s.reg = none → ∀ row : FeatVec,
      resVol (predict res.1 row) = none ∧ (predict res.1 row).isOk = true) := by
  unfold train at hok
  by_cases h6 : (availCols df).length < 6
  · rw [if_pos h6] at hok
    exact absurd hok (by simp)
  · rw [if_neg h6] at hok
    rw [if_neg (not_lt.mpr hr)] at hok
    injection hok with h1
    subst h1
    refine ⟨rfl, rfl, rfl, rfl, ?_⟩
    intro hreg row
    constructor
    · show resVol (predict ⟨some (o.fitClf df.rows), s.reg⟩ row) = none
      rw [hreg]
      by_cases hp : (2⁻¹:ℚ) < (o.fitClf df.rows).proba row <;>
        simp [predict, resVol, hp]
    · simp [predict, Except.isOk, Except.toBool]

/-- An oracle whose fitted classifier always answers probability 1 and
whose fitted regressor always answers 7mm. -/
def oracleConst : FitOracle :=
  ⟨fun _ => oneClf, fun _ => regSeven, 1, 1, 0, 0⟩

/-- A dry training row: zero rainfall. -/
def dryTrainRow : TrainRow := ⟨some 0, []⟩

/-- A rainy training row: 10mm of rainfall. -/
def wetTrainRow : TrainRow := ⟨some 10, []⟩

/-- A twenty-row dataframe with the full feature header, 10 rainy rows
and 10 dry rows (both label classes populated, 10 <= 50 rainy rows). -/
def dfMixed : TrainFrame :=
  ⟨FEATURE_COLS, List.replicate 10 wetTrainRow ++ List.replicate 10 dryTrainRow⟩

/-- A store holding a stale regressor artifact from an earlier training
run, and no classifier. -/
def staleStore : ModelStore := ⟨none, some regSeven⟩

theorem isRainy_wet : isRainy wetTrainRow = true := by
  show decide ((1:ℚ)/2 < 10) = true
  exact decide_eq_true (by norm_num)

theorem isRainy_dry : isRainy dryTrainRow = false := by
  show decide ((1:ℚ)/2 < 0) = false
  exact decide_eq_false (by norm_num)

theorem dfMixed_rainy : rainyCount dfMixed = 10 := by
  simp [rainyCount, dfMixed, List.filter_append, List.filter_replicate,
    isRainy_wet, isRainy_dry]

theorem train_dfMixed (s : ModelStore) :
    train oracleConst s dfMixed
      = Except.ok (⟨some oneClf, s.reg⟩, ⟨1, 1, none, none⟩) := by
  have h6 : ¬ (availCols dfMixed).length < 6 := by decide
  have h50 : ¬ 50 < rainyCount dfMixed := by rw [dfMixed_rainy]; norm_num
  unfold train
  rw [if_neg h6, if_neg h50]
  rfl

/-- C2 counterexample: training on a dataframe with 10 (at most 50)
rainy rows while a stale regressor artifact exists leaves that artifact
persisted, and a subsequent prediction with probability 1 > 0.5 returns
the volume 7mm, not an absent volume. -/
theorem train_regressor_gate_cex :
    rainyCount dfMixed ≤ 50 ∧
    train oracleConst staleStore dfMixed
      = Except.ok (⟨some oneClf, some regSeven⟩, ⟨1, 1, none, none⟩) ∧
    (⟨some oneClf, some regSeven⟩ : ModelStore).reg ≠ none ∧
    resProb (predict ⟨some oneClf, some regSeven⟩ []) = some 1 ∧
    resVol (predict ⟨some oneClf, some regSeven⟩ []) = some 7 := by
  have hp : ((2⁻¹:ℚ) < 1) := by norm_num
  have hm : max (0:ℚ) 7 = 7 := max_eq_right (by norm_num)
  refine ⟨by rw [dfMixed_rainy]; norm_num, train_dfMixed staleStore,
    by simp, rfl, ?_⟩
  simp [predict, resVol, oneClf, regSeven, hp, hm]

/-- C2 witness: from a store with no regressor artifact, training on
the mixed dataframe yields a store whose prediction volume is absent. -/
theorem train_regressor_gate_witness :
    resVol (predict ⟨some oneClf, (none : Option Regressor)⟩ []) = none := by
  have h := train_regressor_gate oracleConst ⟨none, none⟩ dfMixed
    (⟨some oneClf, none⟩, ⟨1, 1, none, none⟩)
    (by rw [dfMixed_rainy]; norm_num) (train_dfMixed ⟨none, none⟩)
  exact (h.2.2.2.2 rfl []).1

/- ────────────────────────────────────────────────────────────────────
C5: the monthly profile builder.
──────────────────────────────────────────────────────────────────── -/

/-- C5 (amended): the profile has one entry per month 1 through 12 and
is total (never raises); every median statistic whose selected subset
has zero non-missing values is the default zero; the rain probability
is NaN (missing) exactly when the selected subset is empty, that is, it
is defined whenever the subset is nonempty and missing whenever the
subset is empty; and the mean rain volume on rainy days is NaN
(missing), not zero, whenever the selected subset has no rainy rows. -/
theorem monthly_stats_profile (df : List ProfRow) :
    ((getMonthlyStats df).map Prod.fst
      = [1, 2, 3, 4, 5, 6, 7, 8, 9, 10, 11, 12]) ∧
    (∀ (m : ℕ) (f : StatField),
      nonMissing ((monthSubset df m).map (fun r => r.stat f)) = [] →
      (monthEntry df m).med f = 0) ∧
    (∀ m : ℕ, monthSubset df m ≠ [] → (monthEntry df m).rain_prob ≠ none) ∧
    (∀ m : ℕ, (monthSubset df m).filter profRainy = [] →
      (monthEntry df m).avg_rain_mm = none) ∧
    (∀ m : ℕ, monthSubset df m = [] → (monthEntry df m).rain_prob = none) := by
  refine ⟨?_, ?_, ?_, ?_, ?_⟩
  · simp only [getMonthlyStats, List.map_map]
    rfl
  · intro m f hempty
    show medStat (monthSubset df m) f = 0
    simp only [medStat]
    rw [hempty]
    rfl
  · intro m hne
    have hfalse : (monthSubset df m).isEmpty = false := by
      cases hsub : monthSubset df m with
      | nil => exact absurd hsub hne
      | cons a l => rfl
    simp [monthEntry, hfalse]
  · intro m hempty
    simp [monthEntry, hempty]
  · intro m hempty
    simp [monthEntry, hempty]

/-- A dry January row: zero rainfall, every statistic cell missing. -/
def dryProfRow : ProfRow := ⟨1, some 0, fun _ => none⟩

/-- Five dry January rows: January has enough rows to escape the sparse
fallback, yet contains no rainy row. -/
def dfNoRain : List ProfRow :=
  [dryProfRow, dryProfRow, dryProfRow, dryProfRow, dryProfRow]

/-- C5 counterexample: on the five-dry-row dataset the January mean
rainy-day volume is NaN (missing), not the defined default zero the
claim states. -/
theorem monthly_stats_cex :
    (monthEntry dfNoRain 1).avg_rain_mm = none ∧
    (monthEntry dfNoRain 1).avg_rain_mm ≠ some 0 := by
  have hdry : profRainy dryProfRow = false := by
    have h0 : ¬ ((1:ℚ)/2 < 0) := by norm_num
    simp [profRainy, dryProfRow, h0]
  have hsub : monthSubset dfNoRain 1 = dfNoRain := by
    simp [monthSubset, dfNoRain, dryProfRow, List.filter]
  have hrainy : dfNoRain.filter profRainy = [] := by
    simp [dfNoRain, hdry, List.filter]
  constructor
  · simp [monthEntry, hsub, hrainy]
  · simp [monthEntry, hsub, hrainy]

/-- C5 witness: on the same dataset the January medians all default to
zero (every cell is missing) and the rain probability is defined. -/
theorem monthly_stats_witness :
    (monthEntry dfNoRain 1).med StatField.Tn = 0 ∧
    (monthEntry dfNoRain 1).rain_prob ≠ none := by
  constructor
  · apply (monthly_stats_profile dfNoRain).2.1 1 StatField.Tn
    simp [nonMissing, monthSubset, dfNoRain, dryProfRow, List.filter]
  · apply (monthly_stats_profile dfNoRain).2.2.1 1
    simp [monthSubset, dfNoRain, dryProfRow, List.filter]

/-- C9 witness: in wet-season January with absent volume, raising the
probability from 0.5 to 0.8 shifts the start two hours earlier, floored
at hour 9. -/
theorem rain_hours_table_witness :
    startOf (rainHourCore (4/5) none 1)
      = max 9 (startOf (rainHourCore (1/2) none 1) - 2) :=
  (rain_hours_table.2.2.2.2.1 1 none (1/2) (4/5) (by decide)
    (by norm_num) (by norm_num) (by norm_num)).1
